import Mathlib

/-!
Shallow embedding of `scripts/run_regression.py`, the regression manager of the
RISC-V SoC repository, together with theorems checking the specification's
claims about it.

Modelling conventions:
* A run of an external command is modelled by an environment `Exec` mapping a
  command string to a `ProcResult` (stdout text, stderr text, exit code).
* Python's `subprocess.check_output(cmd, shell=True, text=True)` returns the
  standard output of the command when its exit code is zero and raises
  `CalledProcessError` otherwise; it does not capture standard error.  It is
  modelled by `check_output` below, returning `Except`.
* `subprocess.run(cmd, shell=True, check=True, capture_output=True)` raises on a
  non-zero exit code; in `pymain` this is modelled by branching on the exit
  code of the compile command.
* Console printing and log-file writing are modelled as a trace of `Event`s;
  `applyEvents` replays the file writes of a trace onto a file system modelled
  as `String → Option String`.
* Python's substring test `pat in s` is modelled by `strContains`, and
  `sep.join(xs)` by `strJoin`.
* The Python `results` dictionary (string keys, insertion ordered, assignment
  replaces the value of an existing key in place) is modelled as an association
  list with `dictInsert`.
-/

set_option maxRecDepth 100000

namespace RegressionScript

/-- Boolean prefix test on character lists. -/
def listIsPrefixOf : List Char → List Char → Bool
  | [], _ => true
  | _ :: _, [] => false
  | a :: as, b :: bs => a == b && listIsPrefixOf as bs

/-- Boolean substring test on character lists: does `pat` occur contiguously in
the second argument? -/
def listContainsSub (pat : List Char) : List Char → Bool
  | [] => listIsPrefixOf pat []
  | c :: rest => listIsPrefixOf pat (c :: rest) || listContainsSub pat rest

/-- Python's `pat in s` substring operator on strings. -/
def strContains (s pat : String) : Bool :=
  listContainsSub pat.data s.data

/-- Python's `sep.join(xs)` string method. -/
def strJoin (sep : String) : List String → String
  | [] => ""
  | [x] => x
  | x :: xs => x ++ sep ++ strJoin sep xs

/-- The configured test-scenario list (`TEST_CASES` in `run_regression.py`). -/
def TEST_CASES : List String :=
  ["DMA_TEST", "CRC_TEST", "TIMER_TEST", "UART_LOOPBACK_TEST",
   "CORNER_CASE_TEST", "FULL_REGRESSION"]

/-- The configured compile-unit list (`COMPILE_ORDER` in `run_regression.py`). -/
def COMPILE_ORDER : List String :=
  ["rtl/on_chip_ram.v", "rtl/crc32_accelerator.v", "rtl/timer.v",
   "rtl/uart_tx.v", "rtl/uart_rx.v", "rtl/uart_top.v",
   "rtl/address_decoder.v", "rtl/arbiter.v", "rtl/interrupt_controller.v",
   "rtl/dma_engine.v", "rtl/simple_cpu.v", "rtl/risc_soc.sv",
   "tb/tb_risc_soc.sv"]

/-- `COMPILE_FILES_STR = " ".join(COMPILE_ORDER)`. -/
def COMPILE_FILES_STR : String := strJoin " " COMPILE_ORDER

/-- The compile invocation built for an arbitrary configured compile-unit list,
mirroring the f-string `f"iverilog -g2005-sv -o soc_sim {files}"`. -/
def compileCmdOf (files : List String) : String :=
  "iverilog -g2005-sv -o soc_sim " ++ strJoin " " files

/-- `IV_COMPILE_CMD` of the script: the compile invocation for the configured
`COMPILE_ORDER`. -/
def IV_COMPILE_CMD : String :=
  "iverilog -g2005-sv -o soc_sim " ++ COMPILE_FILES_STR

/-- The per-scenario run invocation `f"vvp soc_sim +TESTNAME={test}"`. -/
def runCmd (test : String) : String :=
  "vvp soc_sim +TESTNAME=" ++ test

/-- Result of executing one external command: its captured standard output,
captured standard error, and exit code. -/
structure ProcResult where
  stdout : String
  stderr : String
  exitCode : Nat
deriving DecidableEq

/-- An execution environment: what each external command would do if invoked. -/
abbrev Exec := String → ProcResult

/-- Model of `subprocess.check_output(cmd, shell=True, text=True)`: on exit
code 0 it returns the standard output only (standard error is not captured);
on a non-zero exit code it raises `CalledProcessError`, modelled as `.error`. -/
def check_output (env : Exec) (cmd : String) : Except ProcResult String :=
  let r := env cmd
  if r.exitCode = 0 then Except.ok r.stdout else Except.error r

/-- Observable side effects of the script: console lines and file writes
(mode `"w"`, i.e. create-or-truncate). -/
inductive Event where
  | print (line : String)
  | writeFile (name : String) (content : String)
deriving DecidableEq

/-- Replay the file writes of a trace onto a file system
(`String → Option String`); a `writeFile` overwrites the whole file. -/
def applyEvents (fs : String → Option String) : List Event → (String → Option String)
  | [] => fs
  | Event.print _ :: es => applyEvents fs es
  | Event.writeFile n c :: es =>
      applyEvents (fun m => if m = n then some c else fs m) es

/-- The result-parsing `if/elif/else` chain of the script, lines 361-392:
first the pass markers, then the fail markers, else unknown.  The returned
strings are exactly the values stored in the `results` dictionary. -/
def classify (sim_output : String) : String :=
  if strContains sim_output "All Transactions PASSED"
      || strContains sim_output "Test Successful" then "PASS"
  else if strContains sim_output "TEST FAILED"
      || strContains sim_output "ERROR" then "FAIL"
  else "UNKNOWN"

/-- Python dictionary assignment `d[k] = v`: replace the value in place if the
key exists, otherwise append the new pair (insertion order preserved). -/
def dictInsert (d : List (String × String)) (k v : String) :
    List (String × String) :=
  if d.any (fun p => p.1 == k) then
    d.map (fun p => if p.1 == k then (k, v) else p)
  else d ++ [(k, v)]

/-- One iteration of the simulation loop (lines 282-402): announce the test,
run `vvp`, and on success archive the log and classify the output; on a
`CalledProcessError` record a crash.  Returns the emitted events and the
updated results dictionary. -/
def runOneTest (env : Exec) (test : String) (results : List (String × String)) :
    List Event × List (String × String) :=
  let pr := Event.print ("\n--- Running Test: " ++ test ++ " ---")
  match check_output env (runCmd test) with
  | Except.error _ =>
      ([pr, Event.print ("[ERROR] Simulation crashed for test: " ++ test)],
       dictInsert results test "CRASH")
  | Except.ok sim_output =>
      let wv := Event.writeFile ("log_" ++ test ++ ".txt") sim_output
      if strContains sim_output "All Transactions PASSED"
          || strContains sim_output "Test Successful" then
        ([pr, wv, Event.print "[STATUS] PASSED"],
         dictInsert results test "PASS")
      else if strContains sim_output "TEST FAILED"
          || strContains sim_output "ERROR" then
        ([pr, wv, Event.print "[STATUS] FAILED"],
         dictInsert results test "FAIL")
      else
        ([pr, wv, Event.print "[STATUS] UNKNOWN - Could not determine pass/fail."],
         dictInsert results test "UNKNOWN")

/-- The whole simulation loop over a configured scenario list. -/
def runTests (env : Exec) : List String → List (String × String) →
    List Event × List (String × String)
  | [], results => ([], results)
  | t :: ts, results =>
      let step := runOneTest env t results
      let rest := runTests env ts step.2
      (step.1 ++ rest.1, rest.2)

/-- Python's left-aligned width format `f"{s:<20}"` (no truncation). -/
def padRight (s : String) (w : Nat) : String :=
  s ++ String.mk (List.replicate (w - s.length) ' ')

/-- The summary block (lines 411-465): header, one aligned line per recorded
result, the `all_passed` flag accumulated exactly as the source's loop does,
and the final verdict banner.  Returns the emitted events and `all_passed`. -/
def summarize (results : List (String × String)) : List Event × Bool :=
  let header : List Event :=
    [Event.print "\n=======================================",
     Event.print "=== Regression Summary ===",
     Event.print "======================================="]
  let lines := results.map
    (fun p => Event.print ("  " ++ padRight p.1 20 ++ " : " ++ p.2))
  let all_passed := results.foldl
    (fun acc p => if p.2 ≠ "PASS" then false else acc) true
  let verdict : List Event :=
    if all_passed then
      [Event.print ">>> ALL TESTS PASSED! Regression successful. <<<"]
    else
      [Event.print ">>> REGRESSION FAILED! Check logs for details. <<<"]
  (header ++ lines ++ [Event.print "---------------------------------------"]
     ++ verdict ++ [Event.print "======================================="],
   all_passed)

/-- The console output produced before the compile step runs. -/
def startupEvents (files : List String) : List Event :=
  [Event.print "=======================================",
   Event.print "=== Starting RISC-V SoC Regression ===",
   Event.print "=======================================",
   Event.print "\n--- Compiling the design using explicit order ---",
   Event.print ("Compile Command: " ++ compileCmdOf files)]

/-- The `main()` function of the script, parameterised by the environment and
the two configuration lists.  The compile step (`subprocess.run` with
`check=True`) raises on a non-zero exit code, in which case the function
prints the compiler's stderr and returns with an empty results dictionary;
otherwise the scenario loop and the summary run.  Returns the full event
trace and the final results dictionary. -/
def pymain (env : Exec) (files : List String) (tests : List String) :
    List Event × List (String × String) :=
  let r := env (compileCmdOf files)
  if r.exitCode = 0 then
    let res := runTests env tests []
    (startupEvents files ++ [Event.print "Compilation successful."]
       ++ res.1 ++ (summarize res.2).1,
     res.2)
  else
    (startupEvents files
       ++ [Event.print "[ERROR] Compilation failed!", Event.print r.stderr],
     [])

/-- `main()` with the repository's actual configuration. -/
def mainRun (env : Exec) : List Event × List (String × String) :=
  pymain env COMPILE_ORDER TEST_CASES

/-- The outcome the loop records for one scenario: `CRASH` on a non-zero exit
code, otherwise the classification of the captured standard output. -/
def outcomeOf (env : Exec) (test : String) : String :=
  let r := env (runCmd test)
  if r.exitCode = 0 then classify r.stdout else "CRASH"

/-- Join a list of words with single spaces, at the character-list level.
Mirrors `strJoin " "` after `String.data`. -/
def joinChars : List (List Char) → List Char
  | [] => []
  | [w] => w
  | w :: ws => w ++ ' ' :: joinChars ws

/-- Split a character list at spaces; returns the first word and the remaining
words.  Used to read an invocation string back as an argument vector. -/
def splitWordsAux : List Char → List Char × List (List Char)
  | [] => ([], [])
  | c :: rest =>
      let r := splitWordsAux rest
      if c = ' ' then ([], r.1 :: r.2) else (c :: r.1, r.2)

/-- The space-separated tokens of a character list. -/
def splitWords (l : List Char) : List (List Char) :=
  (splitWordsAux l).1 :: (splitWordsAux l).2

/-- Modelled from the spec: the captured text that section 4.2 claims the
Process Runner returns in scenario-run mode, namely "the process's combined
standard output/error text".  Compared against what the code actually
captures (`check_output`, standard output only). -/
def capturedCombined (env : Exec) (test : String) : String :=
  (env (runCmd test)).stdout ++ (env (runCmd test)).stderr

/-- Environment in which every external command succeeds with the pass marker
on standard output. -/
def envAllPass : Exec := fun _ => ProcResult.mk "Test Successful" "" 0

/-- Environment in which the `TIMER_TEST` scenario's process exits with a
non-zero code (after printing a pass marker) and every other command
succeeds. -/
def envCrashTimer : Exec := fun c =>
  if c = runCmd "TIMER_TEST" then ProcResult.mk "Test Successful" "" 2
  else ProcResult.mk "Test Successful" "" 0

/-- Environment in which the `DMA_TEST` scenario's process succeeds but writes
a diagnostic to standard error. -/
def envStderr : Exec := fun c =>
  if c = runCmd "DMA_TEST"
  then ProcResult.mk "All Transactions PASSED" "vvp diagnostic on stderr" 0
  else ProcResult.mk "" "" 0

/-- Environment in which the compile command (for the configured
`COMPILE_ORDER`) fails with a diagnostic on standard error. -/
def envCompileFail : Exec := fun c =>
  if c = compileCmdOf COMPILE_ORDER
  then ProcResult.mk "" "rtl/simple_cpu.v:42: syntax error" 1
  else ProcResult.mk "Test Successful" "" 0

/-- A file system holding a stale artifact for the `DMA_TEST` scenario and a
stale artifact for the `TIMER_TEST` scenario. -/
def fsStale : String → Option String := fun n =>
  if n = "log_DMA_TEST.txt" then some "stale content"
  else if n = "log_TIMER_TEST.txt" then some "old timer log"
  else none

/-! ### Helper lemmas -/

/-- The value the loop stores for a scenario is `outcomeOf`: `CRASH` on a
non-zero exit code, else the classification of the captured stdout. -/
theorem runOneTest_snd (env : Exec) (t : String) (d : List (String × String)) :
    (runOneTest env t d).2 = dictInsert d t (outcomeOf env t) := by
  unfold runOneTest outcomeOf check_output
  by_cases h : (env (runCmd t)).exitCode = 0
  · simp only [h, if_true]
    cases h1 : (strContains (env (runCmd t)).stdout "All Transactions PASSED"
        || strContains (env (runCmd t)).stdout "Test Successful") <;>
      cases h2 : (strContains (env (runCmd t)).stdout "TEST FAILED"
          || strContains (env (runCmd t)).stdout "ERROR") <;>
      simp [classify, h1, h2]
  · simp [h]

/-- Inserting a key not already present appends the pair. -/
theorem dictInsert_fresh (d : List (String × String)) (k v : String)
    (h : ∀ p ∈ d, p.1 ≠ k) : dictInsert d k v = d ++ [(k, v)] := by
  unfold dictInsert
  have hany : d.any (fun p => p.1 == k) = false := by
    simp only [List.any_eq_false]
    intro p hp
    simpa using h p hp
  simp [hany]

/-- The simulation loop, run over a duplicate-free scenario list whose names
are fresh for the accumulator, appends exactly one outcome per scenario, in
order. -/
theorem runTests_snd (env : Exec) (S : List String) :
    ∀ d : List (String × String), S.Nodup →
    (∀ t ∈ S, ∀ p ∈ d, p.1 ≠ t) →
    (runTests env S d).2 = d ++ S.map (fun t => (t, outcomeOf env t)) := by
  induction S with
  | nil => intro d _ _; simp [runTests]
  | cons t ts ih =>
    intro d hnd hfresh
    have hstep : (runOneTest env t d).2 = d ++ [(t, outcomeOf env t)] := by
      rw [runOneTest_snd]
      exact dictInsert_fresh d t _ (fun p hp => hfresh t (by simp) p hp)
    have hrec := ih (d ++ [(t, outcomeOf env t)]) hnd.of_cons ?_
    · show (runTests env ts (runOneTest env t d).2).2 = _
      rw [hstep, hrec]
      simp
    · intro u hu p hp
      rcases List.mem_append.1 hp with hpd | hpt
      · exact hfresh u (List.mem_cons_of_mem _ hu) p hpd
      · have hp' : p = (t, outcomeOf env t) := by simpa using hpt
        subst hp'
        intro hut
        have hut' : t = u := hut
        subst hut'
        exact (List.nodup_cons.1 hnd).1 hu

/-- Shape of `pymain` when the compile command exits with code 0. -/
theorem pymain_ok (env : Exec) (files tests : List String)
    (h : (env (compileCmdOf files)).exitCode = 0) :
    pymain env files tests =
      (startupEvents files ++ [Event.print "Compilation successful."]
         ++ (runTests env tests []).1 ++ (summarize (runTests env tests []).2).1,
       (runTests env tests []).2) := by
  unfold pymain
  simp [h]

/-- Shape of `pymain` when the compile command exits with a non-zero code. -/
theorem pymain_fail (env : Exec) (files tests : List String)
    (h : (env (compileCmdOf files)).exitCode ≠ 0) :
    pymain env files tests =
      (startupEvents files
         ++ [Event.print "[ERROR] Compilation failed!",
             Event.print (env (compileCmdOf files)).stderr],
       []) := by
  unfold pymain
  simp [h]

/-- Results of a full run with a successful compile and a duplicate-free
scenario list: one outcome per scenario, in configured order. -/
theorem pymain_results (env : Exec) (files S : List String)
    (hnd : S.Nodup) (hok : (env (compileCmdOf files)).exitCode = 0) :
    (pymain env files S).2 = S.map (fun t => (t, outcomeOf env t)) := by
  rw [pymain_ok env files S hok]
  simpa using runTests_snd env S [] hnd (by simp)

/-- The source's `all_passed` accumulation loop is the conjunction of
per-entry pass checks. -/
theorem foldl_all_passed (l : List (String × String)) (b : Bool) :
    l.foldl (fun acc p => if p.2 ≠ "PASS" then false else acc) b
      = (b && l.all (fun p => p.2 == "PASS")) := by
  induction l generalizing b with
  | nil => simp
  | cons p l ih =>
    rw [List.foldl_cons, List.all_cons, ih]
    by_cases h : p.2 = "PASS"
    · simp [h]
    · simp [h]

/-- `strJoin " "` agrees with character-level joining. -/
theorem strJoin_data : ∀ files : List String,
    (strJoin " " files).data = joinChars (files.map String.data)
  | [] => rfl
  | [_] => rfl
  | x :: y :: xs => by
    have ih := strJoin_data (y :: xs)
    show (x ++ " " ++ strJoin " " (y :: xs)).data = _
    rw [String.data_append, String.data_append, ih]
    show x.data ++ [' '] ++ _ = x.data ++ ' ' :: joinChars _
    simp

/-- Splitting after a space-free word peels the word off. -/
theorem splitWordsAux_append : ∀ (w l : List Char), (∀ c ∈ w, c ≠ ' ') →
    splitWordsAux (w ++ l) = (w ++ (splitWordsAux l).1, (splitWordsAux l).2)
  | [], _, _ => by simp
  | c :: w, l, h => by
    have ih := splitWordsAux_append w l (fun u hu => h u (List.mem_cons_of_mem _ hu))
    have hc : c ≠ ' ' := h c (List.mem_cons_self _ _)
    simp [splitWordsAux, ih, hc]

/-- Splitting a space-joined list of space-free words recovers the words:
the invocation string determines the argument vector, in order, with
multiplicity. -/
theorem splitWords_joinChars : ∀ ws : List (List Char), ws ≠ [] →
    (∀ w ∈ ws, ∀ c ∈ w, c ≠ ' ') →
    splitWords (joinChars ws) = ws
  | [], h, _ => absurd rfl h
  | [w], _, h => by
    have key : splitWordsAux w = (w, []) := by
      have hw := splitWordsAux_append w [] (fun c hc => h w (by simp) c hc)
      simpa [splitWordsAux] using hw
    show (splitWordsAux (joinChars [w])).1 :: (splitWordsAux (joinChars [w])).2 = [w]
    have hj : joinChars [w] = w := rfl
    rw [hj, key]
  | w :: w' :: ws, _, h => by
    have ih := splitWords_joinChars (w' :: ws) (by simp)
      (fun u hu => h u (List.mem_cons_of_mem _ hu))
    have hw := splitWordsAux_append w (' ' :: joinChars (w' :: ws))
      (fun c hc => h w (by simp) c hc)
    have key : splitWordsAux (joinChars (w :: w' :: ws))
        = (w, (splitWordsAux (joinChars (w' :: ws))).1
            :: (splitWordsAux (joinChars (w' :: ws))).2) := by
      have hj : joinChars (w :: w' :: ws) = w ++ ' ' :: joinChars (w' :: ws) := rfl
      rw [hj, hw]
      simp [splitWordsAux]
    show (splitWordsAux (joinChars (w :: w' :: ws))).1
        :: (splitWordsAux (joinChars (w :: w' :: ws))).2 = w :: w' :: ws
    rw [key]
    exact congrArg (w :: ·) ih

/-! ### Claims -/

/-- C1: the Result Classifier is total and deterministic over captured text and
follows first-match priority: it returns `PASS` when the text contains
`"All Transactions PASSED"` or `"Test Successful"`, otherwise `FAIL` when it
contains `"TEST FAILED"` or `"ERROR"`, otherwise `UNKNOWN`; in particular a
text containing both a pass marker and a fail marker classifies as `PASS`. -/
theorem c1_classifier_total_first_match (t : String) :
    (classify t = "PASS" ∨ classify t = "FAIL" ∨ classify t = "UNKNOWN") ∧
    (classify t = "PASS" ↔
      (strContains t "All Transactions PASSED"
        || strContains t "Test Successful") = true) ∧
    (classify t = "FAIL" ↔
      ((strContains t "All Transactions PASSED"
          || strContains t "Test Successful") = false ∧
       (strContains t "TEST FAILED" || strContains t "ERROR") = true)) ∧
    (classify t = "UNKNOWN" ↔
      ((strContains t "All Transactions PASSED"
          || strContains t "Test Successful") = false ∧
       (strContains t "TEST FAILED" || strContains t "ERROR") = false)) ∧
    ((strContains t "All Transactions PASSED"
        || strContains t "Test Successful") = true →
      (strContains t "TEST FAILED" || strContains t "ERROR") = true →
      classify t = "PASS") := by
  cases h1 : (strContains t "All Transactions PASSED"
      || strContains t "Test Successful") <;>
    cases h2 : (strContains t "TEST FAILED" || strContains t "ERROR") <;>
      simp [classify, h1, h2]

/-- Witness for C1 at a concrete text containing both a pass marker and a
fail marker. -/
theorem c1_witness :
    (strContains "All Transactions PASSED yet TEST FAILED" "All Transactions PASSED"
        || strContains "All Transactions PASSED yet TEST FAILED" "Test Successful") = true ∧
    (strContains "All Transactions PASSED yet TEST FAILED" "TEST FAILED"
        || strContains "All Transactions PASSED yet TEST FAILED" "ERROR") = true ∧
    classify "All Transactions PASSED yet TEST FAILED" = "PASS" :=
  ⟨by decide, by decide,
   (c1_classifier_total_first_match "All Transactions PASSED yet TEST FAILED").2.2.2.2
     (by decide) (by decide)⟩

/-- C2: if the compile step exits non-zero, the run aborts before any scenario
executes: the results dictionary is empty, no log artifact is written, no
summary is emitted (the trace is exactly the startup lines, the failure
message, and the compiler's stderr surfaced verbatim). -/
theorem c2_compile_failure_aborts (env : Exec) (files tests : List String)
    (h : (env (compileCmdOf files)).exitCode ≠ 0) :
    (pymain env files tests).2 = [] ∧
    (pymain env files tests).1 =
      startupEvents files ++
        [Event.print "[ERROR] Compilation failed!",
         Event.print (env (compileCmdOf files)).stderr] ∧
    (∀ n c, Event.writeFile n c ∉ (pymain env files tests).1) ∧
    Event.print (env (compileCmdOf files)).stderr ∈ (pymain env files tests).1 := by
  rw [pymain_fail env files tests h]
  refine ⟨rfl, rfl, ?_, ?_⟩
  · intro n c
    simp [startupEvents]
  · simp [startupEvents]

/-- Witness for C2: a failing compile leaves no results and surfaces the
compiler's stderr. -/
theorem c2_witness :
    (envCompileFail (compileCmdOf COMPILE_ORDER)).exitCode ≠ 0 ∧
    (pymain envCompileFail COMPILE_ORDER TEST_CASES).2 = [] ∧
    Event.print "rtl/simple_cpu.v:42: syntax error"
      ∈ (pymain envCompileFail COMPILE_ORDER TEST_CASES).1 :=
  ⟨by decide,
   (c2_compile_failure_aborts envCompileFail COMPILE_ORDER TEST_CASES (by decide)).1,
   (c2_compile_failure_aborts envCompileFail COMPILE_ORDER TEST_CASES (by decide)).2.2.2⟩

/-- C3 counterexample: the claim quantifies over every configured scenario
list, but for a list with a duplicated name the results dictionary collapses
the duplicates (Python dict keyed by scenario name), so it does not contain
one outcome per entry even though compilation succeeded. -/
theorem c3_counterexample :
    (envAllPass (compileCmdOf COMPILE_ORDER)).exitCode = 0 ∧
    ¬ ((pymain envAllPass COMPILE_ORDER ["DMA_TEST", "DMA_TEST"]).2.map Prod.fst
        = ["DMA_TEST", "DMA_TEST"]) :=
  ⟨rfl, by decide⟩

/-- C3 (amended: scenario list assumed duplicate-free, which the configured
`TEST_CASES` is): whenever compilation succeeds, the results dictionary at
reporting time contains exactly one outcome per entry of the configured
scenario list, in the same order. -/
theorem c3_one_outcome_per_scenario_in_order (env : Exec) (files S : List String)
    (hnd : S.Nodup) (hok : (env (compileCmdOf files)).exitCode = 0) :
    (pymain env files S).2 = S.map (fun t => (t, outcomeOf env t)) :=
  pymain_results env files S hnd hok

/-- Witness for C3 at the configured `TEST_CASES` in an all-pass
environment. -/
theorem c3_witness :
    TEST_CASES.Nodup ∧
    (envAllPass (compileCmdOf COMPILE_ORDER)).exitCode = 0 ∧
    (pymain envAllPass COMPILE_ORDER TEST_CASES).2
      = TEST_CASES.map (fun t => (t, outcomeOf envAllPass t)) :=
  ⟨by decide, rfl,
   c3_one_outcome_per_scenario_in_order envAllPass COMPILE_ORDER TEST_CASES
     (by decide) rfl⟩

/-- C4: the overall verdict is success iff every recorded outcome equals
`PASS`; any single non-`PASS` entry makes the verdict failure; and the
summary trace ends with the banner reflecting that boolean (before the
closing rule). -/
theorem c4_overall_verdict (results : List (String × String)) :
    ((summarize results).2 = true ↔ ∀ p ∈ results, p.2 = "PASS") ∧
    (∀ p ∈ results, p.2 ≠ "PASS" → (summarize results).2 = false) ∧
    (summarize results).1 =
      [Event.print "\n=======================================",
       Event.print "=== Regression Summary ===",
       Event.print "======================================="]
      ++ results.map (fun p => Event.print ("  " ++ padRight p.1 20 ++ " : " ++ p.2))
      ++ [Event.print "---------------------------------------"]
      ++ [Event.print (if (summarize results).2 = true
            then ">>> ALL TESTS PASSED! Regression successful. <<<"
            else ">>> REGRESSION FAILED! Check logs for details. <<<")]
      ++ [Event.print "======================================="] := by
  have hall : (summarize results).2 = results.all (fun p => p.2 == "PASS") := by
    show results.foldl _ true = _
    rw [foldl_all_passed]
    simp
  refine ⟨?_, ?_, ?_⟩
  · rw [hall]
    simp [List.all_eq_true]
  · intro p hp hne
    rw [hall]
    cases hcase : results.all (fun p => p.2 == "PASS")
    · rfl
    · exact absurd (by simpa using List.all_eq_true.1 hcase p hp) hne
  · have hfold : results.foldl (fun acc p => if p.2 ≠ "PASS" then false else acc) true
        = results.all (fun p => p.2 == "PASS") := by
      rw [foldl_all_passed]
      simp
    rw [hall]
    simp only [summarize]
    rw [hfold]
    cases hcase : results.all (fun p => p.2 == "PASS") <;> simp

/-- Witness for C4: a single `FAIL` entry flips the verdict to failure. -/
theorem c4_witness :
    ("CRC_TEST", "FAIL") ∈ [("DMA_TEST", "PASS"), ("CRC_TEST", "FAIL")] ∧
    ("CRC_TEST", "FAIL").2 ≠ "PASS" ∧
    (summarize [("DMA_TEST", "PASS"), ("CRC_TEST", "FAIL")]).2 = false :=
  ⟨by decide, by decide,
   (c4_overall_verdict [("DMA_TEST", "PASS"), ("CRC_TEST", "FAIL")]).2.1
     ("CRC_TEST", "FAIL") (by decide) (by decide)⟩

/-- C5: a scenario whose process exits non-zero is recorded as `CRASH`
regardless of any text it produced (the text rule set is bypassed: only the
exit code matters), and the loop continues: every such scenario still has its
`CRASH` entry in the results of the full run. -/
theorem c5_crash_recorded_loop_continues :
    (∀ (env : Exec) (t : String) (d : List (String × String)),
      (env (runCmd t)).exitCode ≠ 0 →
      (runOneTest env t d).2 = dictInsert d t "CRASH") ∧
    (∀ (env : Exec) (files S : List String), S.Nodup →
      (env (compileCmdOf files)).exitCode = 0 →
      ∀ t ∈ S, (env (runCmd t)).exitCode ≠ 0 →
      (t, "CRASH") ∈ (pymain env files S).2) := by
  constructor
  · intro env t d h
    rw [runOneTest_snd]
    unfold outcomeOf
    simp [h]
  · intro env files S hnd hok t ht hcrash
    rw [pymain_results env files S hnd hok]
    refine List.mem_map.2 ⟨t, ht, ?_⟩
    simp [outcomeOf, hcrash]

/-- Witness for C5: `TIMER_TEST` crashes (exit code 2, pass marker on stdout
notwithstanding), is recorded `CRASH`, and the other scenarios still run. -/
theorem c5_witness :
    TEST_CASES.Nodup ∧
    (envCrashTimer (compileCmdOf COMPILE_ORDER)).exitCode = 0 ∧
    "TIMER_TEST" ∈ TEST_CASES ∧
    (envCrashTimer (runCmd "TIMER_TEST")).exitCode ≠ 0 ∧
    (runOneTest envCrashTimer "TIMER_TEST" []).2
      = dictInsert [] "TIMER_TEST" "CRASH" ∧
    ("TIMER_TEST", "CRASH") ∈ (pymain envCrashTimer COMPILE_ORDER TEST_CASES).2 :=
  ⟨by decide, by decide, by decide, by decide,
   c5_crash_recorded_loop_continues.1 envCrashTimer "TIMER_TEST" [] (by decide),
   c5_crash_recorded_loop_continues.2 envCrashTimer COMPILE_ORDER TEST_CASES
     (by decide) (by decide) "TIMER_TEST" (by decide) (by decide)⟩

/-- C6 counterexample: the code's process runner (`subprocess.check_output`
without stderr redirection) captures standard output only.  In an environment
whose scenario process writes a diagnostic to standard error, the text that
is archived and classified is the stdout alone: it differs from the combined
stdout/stderr text claimed by the spec and does not even contain the stderr
text. -/
theorem c6_counterexample :
    (envStderr (runCmd "DMA_TEST")).exitCode = 0 ∧
    (envStderr (runCmd "DMA_TEST")).stderr ≠ "" ∧
    check_output envStderr (runCmd "DMA_TEST")
      = Except.ok "All Transactions PASSED" ∧
    Event.writeFile "log_DMA_TEST.txt" "All Transactions PASSED"
      ∈ (runOneTest envStderr "DMA_TEST" []).1 ∧
    "All Transactions PASSED" ≠ capturedCombined envStderr "DMA_TEST" ∧
    strContains "All Transactions PASSED" (envStderr (runCmd "DMA_TEST")).stderr
      = false := by
  refine ⟨by decide, by decide, rfl, by decide, by decide, by decide⟩

/-- C6 (amended): in scenario-run mode the Process Runner returns the
process's standard output text only (standard error is not captured), and
that stdout text is exactly what the Log Archiver writes and the Result
Classifier consumes for that scenario. -/
theorem c6_stdout_is_captured_text (env : Exec) (t : String)
    (d : List (String × String)) (h : (env (runCmd t)).exitCode = 0) :
    check_output env (runCmd t) = Except.ok (env (runCmd t)).stdout ∧
    Event.writeFile ("log_" ++ t ++ ".txt") (env (runCmd t)).stdout
      ∈ (runOneTest env t d).1 ∧
    (runOneTest env t d).2 = dictInsert d t (classify (env (runCmd t)).stdout) := by
  refine ⟨by simp [check_output, h], ?_, ?_⟩
  · unfold runOneTest check_output
    simp only [h]
    cases h1 : (strContains (env (runCmd t)).stdout "All Transactions PASSED"
        || strContains (env (runCmd t)).stdout "Test Successful") <;>
      cases h2 : (strContains (env (runCmd t)).stdout "TEST FAILED"
          || strContains (env (runCmd t)).stdout "ERROR") <;>
      simp [h1, h2]
  · rw [runOneTest_snd]
    unfold outcomeOf
    simp [h]

/-- Witness for C6 at the stderr-writing environment. -/
theorem c6_witness :
    (envStderr (runCmd "DMA_TEST")).exitCode = 0 ∧
    check_output envStderr (runCmd "DMA_TEST")
      = Except.ok (envStderr (runCmd "DMA_TEST")).stdout ∧
    Event.writeFile ("log_" ++ "DMA_TEST" ++ ".txt")
        (envStderr (runCmd "DMA_TEST")).stdout
      ∈ (runOneTest envStderr "DMA_TEST" []).1 ∧
    (runOneTest envStderr "DMA_TEST" []).2
      = dictInsert [] "DMA_TEST" (classify (envStderr (runCmd "DMA_TEST")).stdout) :=
  ⟨by decide,
   (c6_stdout_is_captured_text envStderr "DMA_TEST" [] (by decide)).1,
   (c6_stdout_is_captured_text envStderr "DMA_TEST" [] (by decide)).2.1,
   (c6_stdout_is_captured_text envStderr "DMA_TEST" [] (by decide)).2.2⟩

/-- Replaying the events of a successfully run scenario updates exactly the
scenario's log artifact, setting it to the captured stdout. -/
theorem applyEvents_runOneTest (env : Exec) (t : String)
    (d : List (String × String)) (fs : String → Option String)
    (h : (env (runCmd t)).exitCode = 0) (n : String) :
    applyEvents fs (runOneTest env t d).1 n
      = if n = "log_" ++ t ++ ".txt" then some (env (runCmd t)).stdout else fs n := by
  unfold runOneTest check_output
  simp only [h]
  cases h1 : (strContains (env (runCmd t)).stdout "All Transactions PASSED"
      || strContains (env (runCmd t)).stdout "Test Successful") <;>
    cases h2 : (strContains (env (runCmd t)).stdout "TEST FAILED"
        || strContains (env (runCmd t)).stdout "ERROR") <;>
    simp [h1, h2, applyEvents]

/-- C7: the artifact name is deterministically derived from the scenario name
as `log_<name>.txt`; whatever the pre-existing file system held there is
overwritten, the stored content equals the captured text exactly (write then
read round-trips), and no other file is touched. -/
theorem c7_archive_overwrite_roundtrip (env : Exec) (t : String)
    (d : List (String × String)) (fs : String → Option String)
    (h : (env (runCmd t)).exitCode = 0) :
    applyEvents fs (runOneTest env t d).1 ("log_" ++ t ++ ".txt")
      = some (env (runCmd t)).stdout ∧
    (∀ n, n ≠ "log_" ++ t ++ ".txt" →
      applyEvents fs (runOneTest env t d).1 n = fs n) := by
  refine ⟨?_, ?_⟩
  · rw [applyEvents_runOneTest env t d fs h]
    simp
  · intro n hn
    rw [applyEvents_runOneTest env t d fs h]
    simp [hn]

/-- Witness for C7: a stale artifact for `DMA_TEST` is overwritten with the
captured text while the neighbouring artifact is untouched. -/
theorem c7_witness :
    (envAllPass (runCmd "DMA_TEST")).exitCode = 0 ∧
    fsStale ("log_" ++ "DMA_TEST" ++ ".txt") = some "stale content" ∧
    applyEvents fsStale (runOneTest envAllPass "DMA_TEST" []).1
        ("log_" ++ "DMA_TEST" ++ ".txt")
      = some (envAllPass (runCmd "DMA_TEST")).stdout ∧
    applyEvents fsStale (runOneTest envAllPass "DMA_TEST" []).1 "log_TIMER_TEST.txt"
      = fsStale "log_TIMER_TEST.txt" :=
  ⟨by decide, by decide,
   (c7_archive_overwrite_roundtrip envAllPass "DMA_TEST" [] fsStale (by decide)).1,
   (c7_archive_overwrite_roundtrip envAllPass "DMA_TEST" [] fsStale (by decide)).2
     "log_TIMER_TEST.txt" (by decide)⟩

/-- C9: for a scenario whose process exits non-zero, the archive write is
never reached: the scenario's events contain no file write, and replaying
them leaves every file of the file system, including the scenario's own log
artifact, unchanged. -/
theorem c9_crash_writes_nothing (env : Exec) (t : String)
    (d : List (String × String)) (fs : String → Option String)
    (h : (env (runCmd t)).exitCode ≠ 0) :
    (∀ n c, Event.writeFile n c ∉ (runOneTest env t d).1) ∧
    (∀ n, applyEvents fs (runOneTest env t d).1 n = fs n) := by
  have htr : (runOneTest env t d).1
      = [Event.print ("\n--- Running Test: " ++ t ++ " ---"),
         Event.print ("[ERROR] Simulation crashed for test: " ++ t)] := by
    unfold runOneTest check_output
    simp [h]
  rw [htr]
  constructor
  · intro n c
    simp
  · intro n
    simp [applyEvents]

/-- Witness for C9: the crashed `TIMER_TEST` leaves its stale artifact
untouched and emits no write event. -/
theorem c9_witness :
    (envCrashTimer (runCmd "TIMER_TEST")).exitCode ≠ 0 ∧
    applyEvents fsStale (runOneTest envCrashTimer "TIMER_TEST" []).1
        "log_TIMER_TEST.txt" = fsStale "log_TIMER_TEST.txt" ∧
    Event.writeFile "log_TIMER_TEST.txt" "Test Successful"
      ∉ (runOneTest envCrashTimer "TIMER_TEST" []).1 :=
  ⟨by decide,
   (c9_crash_writes_nothing envCrashTimer "TIMER_TEST" [] fsStale (by decide)).2
     "log_TIMER_TEST.txt",
   (c9_crash_writes_nothing envCrashTimer "TIMER_TEST" [] fsStale (by decide)).1
     "log_TIMER_TEST.txt" "Test Successful"⟩

/-- C10: with an empty configured scenario list and a successful compile, the
run reaches the reporter with an empty results dictionary, the all-pass
verdict is vacuously true, and the overall-success banner is printed. -/
theorem c10_empty_scenarios_vacuous_success (env : Exec) (files : List String)
    (h : (env (compileCmdOf files)).exitCode = 0) :
    (pymain env files []).2 = [] ∧
    (summarize (pymain env files []).2).2 = true ∧
    Event.print ">>> ALL TESTS PASSED! Regression successful. <<<"
      ∈ (pymain env files []).1 := by
  have hres : (pymain env files []).2 = [] := by
    rw [pymain_ok env files [] h]
    rfl
  refine ⟨hres, ?_, ?_⟩
  · rw [hres]
    rfl
  · rw [pymain_ok env files [] h]
    simp [runTests, summarize, startupEvents]

/-- Witness for C10 in the all-pass environment with the configured compile
list and no scenarios. -/
theorem c10_witness :
    (envAllPass (compileCmdOf COMPILE_ORDER)).exitCode = 0 ∧
    (pymain envAllPass COMPILE_ORDER []).2 = [] ∧
    Event.print ">>> ALL TESTS PASSED! Regression successful. <<<"
      ∈ (pymain envAllPass COMPILE_ORDER []).1 :=
  ⟨rfl,
   (c10_empty_scenarios_vacuous_success envAllPass COMPILE_ORDER rfl).1,
   (c10_empty_scenarios_vacuous_success envAllPass COMPILE_ORDER rfl).2.2⟩

/-- The compile invocation string is the space-join of the tool tokens and the
configured units. -/
theorem compileCmdOf_data (f : String) (fs : List String) :
    (compileCmdOf (f :: fs)).data
      = joinChars (["iverilog".data, "-g2005-sv".data, "-o".data, "soc_sim".data]
          ++ (f :: fs).map String.data) := by
  show ("iverilog -g2005-sv -o soc_sim " ++ strJoin " " (f :: fs)).data = _
  rw [String.data_append, strJoin_data]
  have hh : "iverilog -g2005-sv -o soc_sim ".data
      = "iverilog".data ++ ' ' :: ("-g2005-sv".data ++ ' '
          :: ("-o".data ++ ' ' :: ("soc_sim".data ++ [' ']))) := by decide
  rw [hh]
  simp [joinChars]

/-- The run invocation string is the space-join of the runner tokens and the
plusarg token carrying the scenario identifier. -/
theorem runCmd_data (t : String) :
    (runCmd t).data
      = joinChars ["vvp".data, "soc_sim".data, "+TESTNAME=".data ++ t.data] := by
  show ("vvp soc_sim +TESTNAME=" ++ t).data = _
  rw [String.data_append]
  have hh : "vvp soc_sim +TESTNAME=".data
      = "vvp".data ++ ' ' :: ("soc_sim".data ++ ' ' :: "+TESTNAME=".data) := by decide
  rw [hh]
  simp [joinChars]

/-- C8: the Command Builder is pure and total.  For every nonempty
compile-unit sequence of space-free paths, reading the compile invocation
string back as an argument vector yields the tool tokens followed by every
unit in configured order, with no reordering and no deduplication; and for
every space-free scenario identifier, the run invocation tokenizes to the
runner tool, the compiled artifact, and the plusarg token `+TESTNAME=`
immediately followed by the identifier. -/
theorem c8_command_builder :
    (∀ files : List String, files ≠ [] →
      (∀ u ∈ files, ∀ c ∈ u.data, c ≠ ' ') →
      splitWords (compileCmdOf files).data
        = ["iverilog".data, "-g2005-sv".data, "-o".data, "soc_sim".data]
            ++ files.map String.data) ∧
    (∀ t : String, (∀ c ∈ t.data, c ≠ ' ') →
      splitWords (runCmd t).data
        = ["vvp".data, "soc_sim".data, "+TESTNAME=".data ++ t.data]) := by
  constructor
  · intro files hne hsp
    obtain ⟨f, fs, rfl⟩ := List.exists_cons_of_ne_nil hne
    rw [compileCmdOf_data]
    apply splitWords_joinChars
    · simp
    · intro w hw
      rcases List.mem_append.1 hw with hl | hr
      · simp only [List.mem_cons, List.mem_singleton, List.not_mem_nil] at hl
        rcases hl with rfl | rfl | rfl | hl
        · decide
        · decide
        · decide
        · rcases hl with rfl | hl
          · decide
          · simp at hl
      · rcases List.mem_map.1 hr with ⟨u, hu, rfl⟩
        exact hsp u hu
  · intro t ht
    rw [runCmd_data]
    apply splitWords_joinChars
    · simp
    · intro w hw
      simp only [List.mem_cons, List.not_mem_nil, or_false] at hw
      rcases hw with rfl | rfl | rfl
      · decide
      · decide
      · intro c hc
        rcases List.mem_append.1 hc with hc | hc
        · have hplus : ∀ u ∈ "+TESTNAME=".data, u ≠ ' ' := by decide
          exact hplus c hc
        · exact ht c hc

/-- Witness for C8 at the configured `COMPILE_ORDER` and the `DMA_TEST`
scenario identifier. -/
theorem c8_witness :
    COMPILE_ORDER ≠ [] ∧
    (∀ u ∈ COMPILE_ORDER, ∀ c ∈ u.data, c ≠ ' ') ∧
    (∀ c ∈ "DMA_TEST".data, c ≠ ' ') ∧
    splitWords (compileCmdOf COMPILE_ORDER).data
      = ["iverilog".data, "-g2005-sv".data, "-o".data, "soc_sim".data]
          ++ COMPILE_ORDER.map String.data ∧
    splitWords (runCmd "DMA_TEST").data
      = ["vvp".data, "soc_sim".data, "+TESTNAME=".data ++ "DMA_TEST".data] :=
  ⟨by decide, by decide, by decide,
   c8_command_builder.1 COMPILE_ORDER (by decide) (by decide),
   c8_command_builder.2 "DMA_TEST" (by decide)⟩

end RegressionScript
